import Mathlib

/-!
Shallow embedding of the smart-keyboard backend (Convex/TypeScript sources:
`convex/devices.ts`, `convex/tools.ts`, `convex/http.ts`, `convex/schema.ts`).

JavaScript numbers are modelled as `Int` (all reachable values are integers),
optional schema fields as `Option _`, and JavaScript truthiness of numbers
(`0` is falsy) and strings (`""` is falsy) is modelled explicitly where the
source relies on it.
-/

/-- 24 hours in milliseconds, `TWENTY_FOUR_HOURS` in the source. -/
def T24 : Int := 86400000

/-- JavaScript truthiness of an optional number: absent and `0` are falsy. -/
def numTruthy : Option Int → Bool
  | none => false
  | some t => t != 0

/-- JavaScript falsiness of an optional string: absent and `""` are falsy. -/
def strFalsy : Option String → Bool
  | none => true
  | some s => s == ""

/-- Does pattern `p` match at the head of `l`? -/
def charsMatchAt : List Char → List Char → Bool
  | [], _ => true
  | _ :: _, [] => false
  | a :: as, b :: bs => a == b && charsMatchAt as bs

/-- Does pattern `p` occur anywhere in `l`? -/
def charsOccur (p : List Char) : List Char → Bool
  | [] => charsMatchAt p []
  | b :: bs => charsMatchAt p (b :: bs) || charsOccur p bs

/-- `s.includes(pat)` from JavaScript. -/
def strContains (s pat : String) : Bool := charsOccur pat.toList s.toList

/-- JavaScript nullish coalescing `a ?? b` on options (keeps `some ""`). -/
def jsNullish (a b : Option String) : Option String :=
  match a with
  | some x => some x
  | none => b

/-- One row of the `devices` table (`convex/schema.ts`). -/
structure Device where
  deviceId : String
  revenueCatId : Option String
  credits : Int
  isPro : Bool
  lastCreditClaimDate : Option String
  lastCreditClaimTimestamp : Option Int
  hasClaimedKeyboardSetupReward : Option Bool
  adWatchSessionsToday : Option Int
  lastAdWatchResetTimestamp : Option Int
  bonusAdClaimsToday : Option Int
  lastBonusAdResetTimestamp : Option Int
  hasClaimedReviewReward : Option Bool
  createdAt : Int
deriving Repr, DecidableEq

/-- Result shape of `claimDailyCredits`. -/
structure DailyClaimResult where
  credits : Int
  claimed : Bool
  message : String
  lastCreditClaimTimestamp : Option Int
deriving Repr, DecidableEq

/-- Result shape of the one-time reward mutations. -/
structure OneTimeClaimResult where
  credits : Int
  claimed : Bool
  message : String
deriving Repr, DecidableEq

/-- Result shape of the rolling-window reward mutations; `count` is
`sessionsCompleted` for ad-watch and `bonusClaimsToday` for bonus-ad. -/
structure RollingClaimResult where
  credits : Int
  claimed : Bool
  count : Int
  message : String
deriving Repr, DecidableEq

/-- `claimDailyCredits` (`convex/devices.ts` 101-150), acting on the device
found by the `by_deviceId` lookup; returns the patched device and the
response object.  The guard is the source's
`device.lastCreditClaimTimestamp && now - device.lastCreditClaimTimestamp < TWENTY_FOUR_HOURS`. -/
def claimDailyCredits (now : Int) (todayDate : String) (d : Device) :
    Device × DailyClaimResult :=
  if numTruthy d.lastCreditClaimTimestamp ∧
      now - d.lastCreditClaimTimestamp.getD 0 < T24 then
    (d, { credits := d.credits, claimed := false,
          message := "You must wait 24 hours between claims",
          lastCreditClaimTimestamp := d.lastCreditClaimTimestamp })
  else
    let newCredits := d.credits + 5
    ({ d with credits := newCredits,
              lastCreditClaimDate := some todayDate,
              lastCreditClaimTimestamp := some now },
     { credits := newCredits, claimed := true,
       message := "5 credits claimed!",
       lastCreditClaimTimestamp := some now })

/-- `claimKeyboardSetupReward` (`convex/devices.ts` 156-191). -/
def claimKeyboardSetupReward (d : Device) : Device × OneTimeClaimResult :=
  if d.hasClaimedKeyboardSetupReward.getD false then
    (d, { credits := d.credits, claimed := false,
          message := "Keyboard setup reward already claimed" })
  else
    let newCredits := d.credits + 20
    ({ d with credits := newCredits, hasClaimedKeyboardSetupReward := some true },
     { credits := newCredits, claimed := true,
       message := "20 credits claimed for keyboard setup!" })

/-- `claimReviewReward` (`convex/devices.ts` 312-347). -/
def claimReviewReward (d : Device) : Device × OneTimeClaimResult :=
  if d.hasClaimedReviewReward.getD false then
    (d, { credits := d.credits, claimed := false,
          message := "Review reward already claimed" })
  else
    let newCredits := d.credits + 20
    ({ d with credits := newCredits, hasClaimedReviewReward := some true },
     { credits := newCredits, claimed := true,
       message := "20 credits claimed for app review!" })

/-- `claimAdWatchReward` (`convex/devices.ts` 197-249): 5 credits per claim,
cap 5 per 24-hour window; `!lastResetTimestamp || now - lastResetTimestamp >= T`
resets the counter, `lastResetTimestamp ?? now` preserves the window anchor. -/
def claimAdWatchReward (now : Int) (d : Device) : Device × RollingClaimResult :=
  let sessionsStored := d.adWatchSessionsToday.getD 0
  let lastReset := d.lastAdWatchResetTimestamp
  let sessionsToday :=
    if numTruthy lastReset = false ∨ T24 ≤ now - lastReset.getD 0 then 0
    else sessionsStored
  if 5 ≤ sessionsToday then
    (d, { credits := d.credits, claimed := false, count := sessionsToday,
          message := "Daily ad watch limit reached (5/5)" })
  else
    let newSessions := sessionsToday + 1
    let newCredits := d.credits + 5
    let resetTimestamp := if sessionsToday = 0 then now else lastReset.getD now
    ({ d with credits := newCredits,
              adWatchSessionsToday := some newSessions,
              lastAdWatchResetTimestamp := some resetTimestamp },
     { credits := newCredits, claimed := true, count := newSessions,
       message := "5 credits claimed! (" ++ toString newSessions ++ "/5 sessions)" })

/-- `claimBonusAdReward` (`convex/devices.ts` 255-306): 10 credits per claim,
cap 3 per 24-hour window, same reset/anchor logic as ad-watch. -/
def claimBonusAdReward (now : Int) (d : Device) : Device × RollingClaimResult :=
  let bonusStored := d.bonusAdClaimsToday.getD 0
  let lastReset := d.lastBonusAdResetTimestamp
  let bonusToday :=
    if numTruthy lastReset = false ∨ T24 ≤ now - lastReset.getD 0 then 0
    else bonusStored
  if 3 ≤ bonusToday then
    (d, { credits := d.credits, claimed := false, count := bonusToday,
          message := "Daily bonus ad limit reached (3/3)" })
  else
    let newBonus := bonusToday + 1
    let newCredits := d.credits + 10
    let resetTimestamp := if bonusToday = 0 then now else lastReset.getD now
    ({ d with credits := newCredits,
              bonusAdClaimsToday := some newBonus,
              lastBonusAdResetTimestamp := some resetTimestamp },
     { credits := newCredits, claimed := true, count := newBonus,
       message := "10 bonus credits claimed! (" ++ toString newBonus ++ "/3 today)" })

/-- `deductCredit` (`convex/tools.ts` 9-25) restricted to the found device:
decrement only when `credits > 0`; note the mutation itself does not look at
`isPro`. -/
def deductCredit (d : Device) : Device :=
  if 0 < d.credits then { d with credits := d.credits - 1 } else d

/-- The credit-consumption step of the streaming pipeline
(`convex/http.ts` 355-359): `if (!device.isPro) deductCredit`. -/
def consumeCreditStep (d : Device) : Device :=
  if d.isPro then d else deductCredit d

/-- The patch `registerDevice` applies to an existing device
(`convex/devices.ts` 31-37): update `revenueCatId` when the argument is
truthy and differs from the stored value. -/
def registerExisting (rc : Option String) (d : Device) : Device :=
  if strFalsy rc = false ∧ d.revenueCatId ≠ rc then { d with revenueCatId := rc }
  else d

/-- The record `registerDevice` inserts for a new device
(`convex/devices.ts` 58-72). -/
def freshDevice (deviceId : String) (rc : Option String) (now : Int) : Device :=
  { deviceId := deviceId
    revenueCatId := rc
    credits := 0
    isPro := false
    lastCreditClaimDate := none
    lastCreditClaimTimestamp := none
    hasClaimedKeyboardSetupReward := some false
    adWatchSessionsToday := some 0
    lastAdWatchResetTimestamp := none
    bonusAdClaimsToday := some 0
    lastBonusAdResetTimestamp := none
    hasClaimedReviewReward := some false
    createdAt := now }

/-- The operations of claim C1, as state transformers of one device record. -/
inductive Op
  | register (rc : Option String)
  | claimDaily (now : Int) (todayDate : String)
  | claimSetup
  | claimAdWatch (now : Int)
  | claimBonusAd (now : Int)
  | claimReview
  | deduct
deriving Repr, DecidableEq

/-- Apply one operation to a device record. -/
def applyOp (d : Device) : Op → Device
  | .register rc => registerExisting rc d
  | .claimDaily now todayDate => (claimDailyCredits now todayDate d).1
  | .claimSetup => (claimKeyboardSetupReward d).1
  | .claimAdWatch now => (claimAdWatchReward now d).1
  | .claimBonusAd now => (claimBonusAdReward now d).1
  | .claimReview => (claimReviewReward d).1
  | .deduct => deductCredit d

/-- Apply a finite sequence of operations, left to right. -/
def applyOps (ops : List Op) (d : Device) : Device := ops.foldl applyOp d

/-- Single-step preservation of non-negative credits. -/
theorem applyOp_credits_nonneg (d : Device) (op : Op) (h : 0 ≤ d.credits) :
    0 ≤ (applyOp d op).credits := by
  cases op <;>
    simp only [applyOp, registerExisting, claimDailyCredits, claimKeyboardSetupReward,
      claimAdWatchReward, claimBonusAdReward, claimReviewReward, deductCredit] <;>
    split_ifs <;> (try simp) <;> omega

/-- Sequence form of credit non-negativity. -/
theorem applyOps_credits_nonneg (ops : List Op) (d : Device) (h : 0 ≤ d.credits) :
    0 ≤ (applyOps ops d).credits := by
  induction ops generalizing d with
  | nil => exact h
  | cons op ops ih => exact ih (applyOp d op) (applyOp_credits_nonneg d op h)

/-- Concrete devices used by witnesses. -/
def devW : Device := freshDevice "w" none 5

def devSetupDone : Device := { devW with hasClaimedKeyboardSetupReward := some true }

def devPro1 : Device := { devW with isPro := true, credits := 1 }

/-- C1: starting from any device record with non-negative credits, every finite
sequence of operations from {registerDevice, claimDailyCredits,
claimKeyboardSetupReward, claimAdWatchReward, claimBonusAdReward,
claimReviewReward, deductCredit} keeps the credits field a non-negative
integer after each operation; `deductCredit` on a device with credits = 0
leaves credits at 0, and registration creates devices with credits = 0. -/
theorem c1_credits_nonneg (d : Device) (h : 0 ≤ d.credits) :
    (∀ ops : List Op, 0 ≤ (applyOps ops d).credits) ∧
    (d.credits = 0 → (deductCredit d).credits = 0) ∧
    (∀ deviceId rc now, (freshDevice deviceId rc now).credits = 0) := by
  refine ⟨fun ops => applyOps_credits_nonneg ops d h, fun h0 => ?_, fun _ _ _ => rfl⟩
  simp [deductCredit, h0]

/-- C1 witness: the invariant instantiated on a concrete fresh device and a
concrete sequence of operations. -/
theorem c1_credits_nonneg_witness :
    0 ≤ (applyOps [Op.claimSetup, Op.deduct, Op.deduct] devW).credits :=
  (c1_credits_nonneg devW (by decide)).1 [Op.claimSetup, Op.deduct, Op.deduct]

/-- C2 counterexample: `deductCredit` itself does not consult `isPro`; applied
to a Pro device with credits = 1 it changes the credits to 0, contradicting
the claim that it is a no-op on Pro devices. -/
theorem c2_counterexample :
    devPro1.isPro = true ∧ (deductCredit devPro1).credits ≠ devPro1.credits := by
  constructor
  · rfl
  · decide

/-- C2 amended: the pipeline's credit-consumption step
(`if (!device.isPro) deductCredit` in `convex/http.ts`) decrements credits by
exactly 1 when the device is not Pro and credits > 0 and is a no-op otherwise;
the `deductCredit` mutation itself decrements exactly when credits > 0,
regardless of `isPro` — the Pro exemption lives at its call site. -/
theorem c2_consume_credit_amended (d : Device) :
    ((¬d.isPro ∧ 0 < d.credits) →
      consumeCreditStep d = { d with credits := d.credits - 1 }) ∧
    ((d.isPro ∨ d.credits ≤ 0) → consumeCreditStep d = d) ∧
    (0 < d.credits → deductCredit d = { d with credits := d.credits - 1 }) ∧
    (d.credits ≤ 0 → deductCredit d = d) := by
  refine ⟨fun ⟨hp, hc⟩ => ?_, fun h => ?_, fun hc => ?_, fun hc => ?_⟩
  · simp [consumeCreditStep, deductCredit, hp, hc]
  · simp only [consumeCreditStep, deductCredit]
    split_ifs with hp hlt
    · rfl
    · rcases h with h | h
      · exact absurd h hp
      · exact absurd hlt (by omega)
    · rfl
  · simp [deductCredit, hc]
  · simp [deductCredit]
    intro
    omega

/-- C2 witness: the amended statement applied to a concrete non-Pro device with
one credit. -/
theorem c2_consume_credit_amended_witness :
    consumeCreditStep { devW with credits := 1 } =
      { devW with credits := 0 } :=
  (c2_consume_credit_amended { devW with credits := 1 }).1 ⟨by decide, by decide⟩

/-- C5: from a registered device that has not yet claimed a one-time reward
(keyboard-setup or review), the first claim returns claimed = true and adds
exactly 20 credits while setting the flag to true; every subsequent claim
returns claimed = false and changes nothing; a set flag is never cleared. -/
theorem c5_one_time_rewards (d : Device) :
    (d.hasClaimedKeyboardSetupReward.getD false = false →
      (claimKeyboardSetupReward d).2.claimed = true ∧
      (claimKeyboardSetupReward d).2.credits = d.credits + 20 ∧
      (claimKeyboardSetupReward d).1.credits = d.credits + 20 ∧
      (claimKeyboardSetupReward d).1.hasClaimedKeyboardSetupReward = some true ∧
      (claimKeyboardSetupReward (claimKeyboardSetupReward d).1).2.claimed = false ∧
      (claimKeyboardSetupReward (claimKeyboardSetupReward d).1).2.credits = d.credits + 20 ∧
      (claimKeyboardSetupReward (claimKeyboardSetupReward d).1).1 =
        (claimKeyboardSetupReward d).1) ∧
    (d.hasClaimedKeyboardSetupReward.getD false = true →
      (claimKeyboardSetupReward d).2.claimed = false ∧
      (claimKeyboardSetupReward d).1 = d) ∧
    (d.hasClaimedReviewReward.getD false = false →
      (claimReviewReward d).2.claimed = true ∧
      (claimReviewReward d).2.credits = d.credits + 20 ∧
      (claimReviewReward d).1.credits = d.credits + 20 ∧
      (claimReviewReward d).1.hasClaimedReviewReward = some true ∧
      (claimReviewReward (claimReviewReward d).1).2.claimed = false ∧
      (claimReviewReward (claimReviewReward d).1).2.credits = d.credits + 20 ∧
      (claimReviewReward (claimReviewReward d).1).1 = (claimReviewReward d).1) ∧
    (d.hasClaimedReviewReward.getD false = true →
      (claimReviewReward d).2.claimed = false ∧
      (claimReviewReward d).1 = d) := by
  refine ⟨fun h => ?_, fun h => ?_, fun h => ?_, fun h => ?_⟩
  · simp [claimKeyboardSetupReward, h]
  · simp [claimKeyboardSetupReward, h]
  · simp [claimReviewReward, h]
  · simp [claimReviewReward, h]

/-- C5 witness: a fresh device claims the setup reward once successfully. -/
theorem c5_one_time_rewards_witness :
    (claimKeyboardSetupReward devW).2.claimed = true :=
  ((c5_one_time_rewards devW).1 (by decide)).1

/-- Rejection shape of `claimDailyCredits`. -/
theorem claimDaily_reject (d : Device) (now : Int) (todayDate : String) (t : Int)
    (hts : d.lastCreditClaimTimestamp = some t) (h0 : t ≠ 0) (hw : now - t < T24) :
    claimDailyCredits now todayDate d =
      (d, { credits := d.credits, claimed := false,
            message := "You must wait 24 hours between claims",
            lastCreditClaimTimestamp := some t }) := by
  simp only [claimDailyCredits, hts, numTruthy, Option.getD_some]
  rw [if_pos ⟨by simp [h0], hw⟩]

/-- Grant shape of `claimDailyCredits`. -/
theorem claimDaily_grant (d : Device) (now : Int) (todayDate : String)
    (h : numTruthy d.lastCreditClaimTimestamp = false ∨
      T24 ≤ now - d.lastCreditClaimTimestamp.getD 0) :
    claimDailyCredits now todayDate d =
      ({ d with credits := d.credits + 5, lastCreditClaimDate := some todayDate,
                lastCreditClaimTimestamp := some now },
       { credits := d.credits + 5, claimed := true, message := "5 credits claimed!",
         lastCreditClaimTimestamp := some now }) := by
  have hneg : ¬(numTruthy d.lastCreditClaimTimestamp = true ∧
      now - d.lastCreditClaimTimestamp.getD 0 < T24) := by
    rcases h with h | h
    · intro hc
      rw [h] at hc
      exact absurd hc.1 (by simp)
    · intro hc
      omega
  simp only [claimDailyCredits]
  rw [if_neg hneg]

/-- C7: assuming the request time is at least 24 hours past the epoch, the
daily-credit claim succeeds exactly when the device has no last-claim
timestamp or at least 24 hours have elapsed since it; success adds exactly
5 credits and stamps now; rejection returns the "must wait" message with the
device unchanged. -/
theorem c7_daily_claim (d : Device) (now : Int) (todayDate : String)
    (h24 : T24 ≤ now) :
    ((claimDailyCredits now todayDate d).2.claimed = true ↔
      (d.lastCreditClaimTimestamp = none ∨
        ∃ t, d.lastCreditClaimTimestamp = some t ∧ T24 ≤ now - t)) ∧
    ((claimDailyCredits now todayDate d).2.claimed = true →
      (claimDailyCredits now todayDate d).2.credits = d.credits + 5 ∧
      (claimDailyCredits now todayDate d).1.credits = d.credits + 5 ∧
      (claimDailyCredits now todayDate d).1.lastCreditClaimTimestamp = some now) ∧
    ((claimDailyCredits now todayDate d).2.claimed = false →
      (claimDailyCredits now todayDate d).2.message =
        "You must wait 24 hours between claims" ∧
      (claimDailyCredits now todayDate d).2.credits = d.credits ∧
      (claimDailyCredits now todayDate d).1 = d) := by
  by_cases hgrant : d.lastCreditClaimTimestamp = none ∨
      ∃ t, d.lastCreditClaimTimestamp = some t ∧ T24 ≤ now - t
  · have hcond : numTruthy d.lastCreditClaimTimestamp = false ∨
        T24 ≤ now - d.lastCreditClaimTimestamp.getD 0 := by
      rcases hgrant with h | ⟨t, ht, hle⟩
      · exact Or.inl (by simp [numTruthy, h])
      · rw [ht]
        exact Or.inr (by simpa using hle)
    rw [claimDaily_grant d now todayDate hcond]
    exact ⟨⟨fun _ => hgrant, fun _ => rfl⟩, fun _ => ⟨rfl, rfl, rfl⟩,
      fun hf => absurd hf (by simp)⟩
  · rcases hts : d.lastCreditClaimTimestamp with _ | t
    · exact absurd (Or.inl hts) hgrant
    · have hw : now - t < T24 := by
        by_contra hge
        exact hgrant (Or.inr ⟨t, hts, by omega⟩)
      have h0 : t ≠ 0 := fun h0 => by
        rw [h0] at hw
        omega
      rw [claimDaily_reject d now todayDate t hts h0 hw]
      refine ⟨⟨fun hf => absurd hf (by simp), fun hr => ?_⟩,
        fun ht' => absurd ht' (by simp), fun _ => ⟨rfl, rfl, rfl⟩⟩
      rcases hr with h | ⟨u, hu, hle⟩
      · exact absurd h (by simp)
      · injection hu with hu
        subst hu
        exact absurd hle (by omega)

/-- C7 witness: a fresh device (no last-claim timestamp) claims successfully
at a concrete time. -/
theorem c7_daily_claim_witness :
    (claimDailyCredits 86400000 "2026-01-02" devW).2.claimed = true :=
  (c7_daily_claim devW 86400000 "2026-01-02" (by decide)).1.mpr (Or.inl (by decide))

/-- C10: every claim operation that returns claimed = false leaves the entire
device record unchanged (daily, keyboard-setup, review, ad-watch, bonus-ad). -/
theorem c10_rejected_claims_no_write (d : Device) (now : Int) (todayDate : String) :
    ((claimDailyCredits now todayDate d).2.claimed = false →
      (claimDailyCredits now todayDate d).1 = d) ∧
    ((claimKeyboardSetupReward d).2.claimed = false →
      (claimKeyboardSetupReward d).1 = d) ∧
    ((claimReviewReward d).2.claimed = false → (claimReviewReward d).1 = d) ∧
    ((claimAdWatchReward now d).2.claimed = false →
      (claimAdWatchReward now d).1 = d) ∧
    ((claimBonusAdReward now d).2.claimed = false →
      (claimBonusAdReward now d).1 = d) := by
  refine ⟨?_, ?_, ?_, ?_, ?_⟩ <;>
    · simp only [claimDailyCredits, claimKeyboardSetupReward, claimReviewReward,
        claimAdWatchReward, claimBonusAdReward]
      split_ifs <;> simp

/-- C10 witness: a rejected keyboard-setup claim on a device that already
claimed it leaves the record untouched. -/
theorem c10_rejected_claims_no_write_witness :
    (claimKeyboardSetupReward devSetupDone).1 = devSetupDone :=
  (c10_rejected_claims_no_write devSetupDone 0 "x").2.1 (by decide)

/-- Grant shape of `claimAdWatchReward` when the 24h window is expired or the
reset timestamp is unset: counter restarts at 1 and the window is re-anchored. -/
theorem adWatch_step_reset (d : Device) (now : Int)
    (h : numTruthy d.lastAdWatchResetTimestamp = false ∨
      T24 ≤ now - d.lastAdWatchResetTimestamp.getD 0) :
    claimAdWatchReward now d =
      ({ d with credits := d.credits + 5, adWatchSessionsToday := some 1,
                lastAdWatchResetTimestamp := some now },
       { credits := d.credits + 5, claimed := true, count := 1,
         message := "5 credits claimed! (" ++ toString (1 : Int) ++ "/5 sessions)" }) := by
  simp only [claimAdWatchReward]
  rw [if_pos h, if_neg (by norm_num : ¬(5 : Int) ≤ 0), if_pos rfl]
  norm_num

/-- Grant shape of `claimAdWatchReward` inside a live window below the cap. -/
theorem adWatch_step_in_window (d : Device) (now t : Int)
    (hts : d.lastAdWatchResetTimestamp = some t) (h0 : t ≠ 0)
    (hw : now - t < T24) (hc : d.adWatchSessionsToday.getD 0 < 5) :
    claimAdWatchReward now d =
      ({ d with credits := d.credits + 5,
                adWatchSessionsToday := some (d.adWatchSessionsToday.getD 0 + 1),
                lastAdWatchResetTimestamp :=
                  some (if d.adWatchSessionsToday.getD 0 = 0 then now else t) },
       { credits := d.credits + 5, claimed := true,
         count := d.adWatchSessionsToday.getD 0 + 1,
         message := "5 credits claimed! (" ++
           toString (d.adWatchSessionsToday.getD 0 + 1) ++ "/5 sessions)" }) := by
  have hA : ¬((t != 0) = false ∨ T24 ≤ now - t) := by
    rintro (hf | hge)
    · simp at hf
      exact h0 hf
    · omega
  have hB : ¬(5 ≤ d.adWatchSessionsToday.getD 0) := by omega
  simp only [claimAdWatchReward, hts, numTruthy, Option.getD_some, if_neg hA, if_neg hB]

/-- Rejection shape of `claimAdWatchReward` at the cap inside a live window. -/
theorem adWatch_step_cap (d : Device) (now t : Int)
    (hts : d.lastAdWatchResetTimestamp = some t) (h0 : t ≠ 0)
    (hw : now - t < T24) (hc : 5 ≤ d.adWatchSessionsToday.getD 0) :
    claimAdWatchReward now d =
      (d, { credits := d.credits, claimed := false,
            count := d.adWatchSessionsToday.getD 0,
            message := "Daily ad watch limit reached (5/5)" }) := by
  have hA : ¬((t != 0) = false ∨ T24 ≤ now - t) := by
    rintro (hf | hge)
    · simp at hf
      exact h0 hf
    · omega
  simp only [claimAdWatchReward, hts, numTruthy, Option.getD_some, if_neg hA, if_pos hc]

/-- Grant shape of `claimBonusAdReward` when the window is expired or unset. -/
theorem bonusAd_step_reset (d : Device) (now : Int)
    (h : numTruthy d.lastBonusAdResetTimestamp = false ∨
      T24 ≤ now - d.lastBonusAdResetTimestamp.getD 0) :
    claimBonusAdReward now d =
      ({ d with credits := d.credits + 10, bonusAdClaimsToday := some 1,
                lastBonusAdResetTimestamp := some now },
       { credits := d.credits + 10, claimed := true, count := 1,
         message := "10 bonus credits claimed! (" ++ toString (1 : Int) ++ "/3 today)" }) := by
  simp only [claimBonusAdReward]
  rw [if_pos h, if_neg (by norm_num : ¬(3 : Int) ≤ 0), if_pos rfl]
  norm_num

/-- Grant shape of `claimBonusAdReward` inside a live window below the cap. -/
theorem bonusAd_step_in_window (d : Device) (now t : Int)
    (hts : d.lastBonusAdResetTimestamp = some t) (h0 : t ≠ 0)
    (hw : now - t < T24) (hc : d.bonusAdClaimsToday.getD 0 < 3) :
    claimBonusAdReward now d =
      ({ d with credits := d.credits + 10,
                bonusAdClaimsToday := some (d.bonusAdClaimsToday.getD 0 + 1),
                lastBonusAdResetTimestamp :=
                  some (if d.bonusAdClaimsToday.getD 0 = 0 then now else t) },
       { credits := d.credits + 10, claimed := true,
         count := d.bonusAdClaimsToday.getD 0 + 1,
         message := "10 bonus credits claimed! (" ++
           toString (d.bonusAdClaimsToday.getD 0 + 1) ++ "/3 today)" }) := by
  have hA : ¬((t != 0) = false ∨ T24 ≤ now - t) := by
    rintro (hf | hge)
    · simp at hf
      exact h0 hf
    · omega
  have hB : ¬(3 ≤ d.bonusAdClaimsToday.getD 0) := by omega
  simp only [claimBonusAdReward, hts, numTruthy, Option.getD_some, if_neg hA, if_neg hB]

/-- Rejection shape of `claimBonusAdReward` at the cap inside a live window. -/
theorem bonusAd_step_cap (d : Device) (now t : Int)
    (hts : d.lastBonusAdResetTimestamp = some t) (h0 : t ≠ 0)
    (hw : now - t < T24) (hc : 3 ≤ d.bonusAdClaimsToday.getD 0) :
    claimBonusAdReward now d =
      (d, { credits := d.credits, claimed := false,
            count := d.bonusAdClaimsToday.getD 0,
            message := "Daily bonus ad limit reached (3/3)" }) := by
  have hA : ¬((t != 0) = false ∨ T24 ≤ now - t) := by
    rintro (hf | hge)
    · simp at hf
      exact h0 hf
    · omega
  simp only [claimBonusAdReward, hts, numTruthy, Option.getD_some, if_neg hA, if_pos hc]

/-- Run a sequence of ad-watch claims at the given times, collecting the
`claimed` flags. -/
def adWatchRun : List Int → Device → List Bool × Device
  | [], d => ([], d)
  | t :: ts, d =>
    let r := claimAdWatchReward t d
    let rest := adWatchRun ts r.1
    (r.2.claimed :: rest.1, rest.2)

/-- C6: assuming the request time is at least 24 hours past the epoch, the
rolling-window rewards behave as specified: an expired or unset window resets
the counter (treated as 0) and a successful claim then stores counter 1 and
anchors the window at now; inside a live window a claim below the cap (5 for
ad-watch, 3 for bonus-ad) succeeds, increments the counter, adds the reward
(5 resp. 10 credits), and preserves the window anchor (setting it to now only
when the counter was 0); at the cap the claim returns claimed = false with the
device unchanged; and six ad-watch claims within one 24h window yield
claimed = true five times and then claimed = false. -/
theorem c6_rolling_rewards (d : Device) (now : Int) (h24 : T24 ≤ now) :
    ((d.lastAdWatchResetTimestamp = none ∨
        ∃ t, d.lastAdWatchResetTimestamp = some t ∧ T24 ≤ now - t) →
      (claimAdWatchReward now d).2.claimed = true ∧
      (claimAdWatchReward now d).1.credits = d.credits + 5 ∧
      (claimAdWatchReward now d).1.adWatchSessionsToday = some 1 ∧
      (claimAdWatchReward now d).1.lastAdWatchResetTimestamp = some now) ∧
    (∀ t, d.lastAdWatchResetTimestamp = some t → now - t < T24 →
      (d.adWatchSessionsToday.getD 0 < 5 →
        (claimAdWatchReward now d).2.claimed = true ∧
        (claimAdWatchReward now d).1.credits = d.credits + 5 ∧
        (claimAdWatchReward now d).1.adWatchSessionsToday =
          some (d.adWatchSessionsToday.getD 0 + 1) ∧
        (claimAdWatchReward now d).1.lastAdWatchResetTimestamp =
          some (if d.adWatchSessionsToday.getD 0 = 0 then now else t)) ∧
      (5 ≤ d.adWatchSessionsToday.getD 0 →
        (claimAdWatchReward now d).2.claimed = false ∧
        (claimAdWatchReward now d).1 = d)) ∧
    ((d.lastBonusAdResetTimestamp = none ∨
        ∃ t, d.lastBonusAdResetTimestamp = some t ∧ T24 ≤ now - t) →
      (claimBonusAdReward now d).2.claimed = true ∧
      (claimBonusAdReward now d).1.credits = d.credits + 10 ∧
      (claimBonusAdReward now d).1.bonusAdClaimsToday = some 1 ∧
      (claimBonusAdReward now d).1.lastBonusAdResetTimestamp = some now) ∧
    (∀ t, d.lastBonusAdResetTimestamp = some t → now - t < T24 →
      (d.bonusAdClaimsToday.getD 0 < 3 →
        (claimBonusAdReward now d).2.claimed = true ∧
        (claimBonusAdReward now d).1.credits = d.credits + 10 ∧
        (claimBonusAdReward now d).1.bonusAdClaimsToday =
          some (d.bonusAdClaimsToday.getD 0 + 1) ∧
        (claimBonusAdReward now d).1.lastBonusAdResetTimestamp =
          some (if d.bonusAdClaimsToday.getD 0 = 0 then now else t)) ∧
      (3 ≤ d.bonusAdClaimsToday.getD 0 →
        (claimBonusAdReward now d).2.claimed = false ∧
        (claimBonusAdReward now d).1 = d)) ∧
    (∀ t1 t2 t3 t4 t5 t6 : Int, T24 ≤ t1 →
      t2 - t1 < T24 → t3 - t1 < T24 → t4 - t1 < T24 → t5 - t1 < T24 →
      t6 - t1 < T24 → d.lastAdWatchResetTimestamp = none →
      (adWatchRun [t1, t2, t3, t4, t5, t6] d).1 =
        [true, true, true, true, true, false]) := by
  have hT : T24 = 86400000 := rfl
  refine ⟨fun hreset => ?_, fun t hts hw => ⟨fun hc => ?_, fun hc => ?_⟩,
    fun hreset => ?_, fun t hts hw => ⟨fun hc => ?_, fun hc => ?_⟩,
    fun t1 t2 t3 t4 t5 t6 ha hb hc' hd' he hf hts => ?_⟩
  · have hcond : numTruthy d.lastAdWatchResetTimestamp = false ∨
        T24 ≤ now - d.lastAdWatchResetTimestamp.getD 0 := by
      rcases hreset with h | ⟨t, ht, hle⟩
      · exact Or.inl (by simp [numTruthy, h])
      · rw [ht]
        exact Or.inr (by simpa using hle)
    rw [adWatch_step_reset d now hcond]
    exact ⟨rfl, rfl, rfl, rfl⟩
  · have h0 : t ≠ 0 := fun h0 => by rw [h0] at hw; omega
    rw [adWatch_step_in_window d now t hts h0 hw hc]
    exact ⟨rfl, rfl, rfl, rfl⟩
  · have h0 : t ≠ 0 := fun h0 => by rw [h0] at hw; omega
    rw [adWatch_step_cap d now t hts h0 hw hc]
    exact ⟨rfl, rfl⟩
  · have hcond : numTruthy d.lastBonusAdResetTimestamp = false ∨
        T24 ≤ now - d.lastBonusAdResetTimestamp.getD 0 := by
      rcases hreset with h | ⟨t, ht, hle⟩
      · exact Or.inl (by simp [numTruthy, h])
      · rw [ht]
        exact Or.inr (by simpa using hle)
    rw [bonusAd_step_reset d now hcond]
    exact ⟨rfl, rfl, rfl, rfl⟩
  · have h0 : t ≠ 0 := fun h0 => by rw [h0] at hw; omega
    rw [bonusAd_step_in_window d now t hts h0 hw hc]
    exact ⟨rfl, rfl, rfl, rfl⟩
  · have h0 : t ≠ 0 := fun h0 => by rw [h0] at hw; omega
    rw [bonusAd_step_cap d now t hts h0 hw hc]
    exact ⟨rfl, rfl⟩
  · have ht1 : t1 ≠ 0 := by omega
    simp only [adWatchRun]
    rw [adWatch_step_reset d t1 (Or.inl (by simp [numTruthy, hts]))]
    rw [adWatch_step_in_window _ t2 t1 rfl ht1 (by omega) (by simp)]
    rw [adWatch_step_in_window _ t3 t1 rfl ht1 (by omega) (by simp)]
    rw [adWatch_step_in_window _ t4 t1 rfl ht1 (by omega) (by simp)]
    rw [adWatch_step_in_window _ t5 t1 rfl ht1 (by omega) (by simp)]
    rw [adWatch_step_cap _ t6 t1 rfl ht1 (by omega) (by simp)]

/-- C6 witness: a fresh device succeeds at its first ad-watch claim. -/
theorem c6_rolling_rewards_witness :
    (claimAdWatchReward 86400000 devW).2.claimed = true :=
  ((c6_rolling_rewards devW 86400000 (by decide)).1 (Or.inl rfl)).1

/-- The normalized record returned by `registerDevice` and `getDevice`
(optional flags defaulted, counters defaulted to 0). -/
structure RegResult where
  deviceId : String
  credits : Int
  isPro : Bool
  revenueCatId : Option String
  lastCreditClaimDate : Option String
  lastCreditClaimTimestamp : Option Int
  hasClaimedKeyboardSetupReward : Bool
  adWatchSessionsToday : Int
  lastAdWatchResetTimestamp : Option Int
  bonusAdClaimsToday : Int
  lastBonusAdResetTimestamp : Option Int
  hasClaimedReviewReward : Bool
  createdAt : Int
deriving Repr, DecidableEq

/-- The record `registerDevice` returns for an existing device
(`convex/devices.ts` 39-54): `revenueCatId` is `args.revenueCatId ?? existing.revenueCatId`. -/
def normalizeExisting (ex : Device) (rc : Option String) : RegResult :=
  { deviceId := ex.deviceId, credits := ex.credits, isPro := ex.isPro,
    revenueCatId := jsNullish rc ex.revenueCatId,
    lastCreditClaimDate := ex.lastCreditClaimDate,
    lastCreditClaimTimestamp := ex.lastCreditClaimTimestamp,
    hasClaimedKeyboardSetupReward := ex.hasClaimedKeyboardSetupReward.getD false,
    adWatchSessionsToday := ex.adWatchSessionsToday.getD 0,
    lastAdWatchResetTimestamp := ex.lastAdWatchResetTimestamp,
    bonusAdClaimsToday := ex.bonusAdClaimsToday.getD 0,
    lastBonusAdResetTimestamp := ex.lastBonusAdResetTimestamp,
    hasClaimedReviewReward := ex.hasClaimedReviewReward.getD false,
    createdAt := ex.createdAt }

/-- The record `registerDevice` returns after inserting a new device
(`convex/devices.ts` 78-93). -/
def normalizeNew (dv : Device) : RegResult :=
  { deviceId := dv.deviceId, credits := dv.credits, isPro := dv.isPro,
    revenueCatId := dv.revenueCatId,
    lastCreditClaimDate := dv.lastCreditClaimDate,
    lastCreditClaimTimestamp := dv.lastCreditClaimTimestamp,
    hasClaimedKeyboardSetupReward := dv.hasClaimedKeyboardSetupReward.getD false,
    adWatchSessionsToday := dv.adWatchSessionsToday.getD 0,
    lastAdWatchResetTimestamp := dv.lastAdWatchResetTimestamp,
    bonusAdClaimsToday := dv.bonusAdClaimsToday.getD 0,
    lastBonusAdResetTimestamp := dv.lastBonusAdResetTimestamp,
    hasClaimedReviewReward := dv.hasClaimedReviewReward.getD false,
    createdAt := dv.createdAt }

/-- Patch the first device satisfying `p` (the unique index match of
`ctx.db.patch`). -/
def patchFirst (p : Device → Bool) (f : Device → Device) : List Device → List Device
  | [] => []
  | d :: ds => if p d then f d :: ds else d :: patchFirst p f ds

/-- `registerDevice` (`convex/devices.ts` 13-95) over the whole `devices`
table: length validation, lookup by `deviceId`, conditional `revenueCatId`
patch, or insertion of a fresh zero-credit record. -/
def registerDevice (now : Int) (deviceId : String) (rc : Option String)
    (ds : List Device) : Except String (List Device × RegResult) :=
  if 255 < deviceId.length ∨ (strFalsy rc = false ∧ 255 < (rc.getD "").length) then
    .error "Invalid id length"
  else
    match ds.find? (fun x => x.deviceId == deviceId) with
    | some existing =>
      let ds' := if strFalsy rc = false ∧ existing.revenueCatId ≠ rc then
          patchFirst (fun x => x.deviceId == deviceId)
            (fun x => { x with revenueCatId := rc }) ds
        else ds
      .ok (ds', normalizeExisting existing rc)
    | none =>
      let dvc := freshDevice deviceId rc now
      .ok (ds ++ [dvc], normalizeNew dvc)

/-- Decomposition of `patchFirst` at a successful `find?`. -/
theorem patchFirst_decomp (p : Device → Bool) (f : Device → Device) :
    ∀ (ds : List Device) (dv : Device), ds.find? p = some dv →
      ∃ l1 l2, ds = l1 ++ dv :: l2 ∧ (∀ x ∈ l1, p x = false) ∧
        patchFirst p f ds = l1 ++ f dv :: l2 := by
  intro ds
  induction ds with
  | nil => intro dv h; simp at h
  | cons a as ih =>
    intro dv h
    by_cases hp : p a
    · rw [List.find?_cons_of_pos as hp] at h
      injection h with h
      subst h
      exact ⟨[], as, rfl, by simp, by simp [patchFirst, hp]⟩
    · rw [List.find?_cons_of_neg as hp] at h
      obtain ⟨l1, l2, hds, hl1, hpf⟩ := ih dv h
      refine ⟨a :: l1, l2, by rw [List.cons_append, hds], ?_, ?_⟩
      · intro x hx
        rcases List.mem_cons.mp hx with hx | hx
        · subst hx
          exact Bool.not_eq_true _ ▸ (by simpa using hp)
        · exact hl1 x hx
      · simp [patchFirst, hp, hpf]

/-- Devices compared with the `revenueCatId` field erased. -/
def stripRc (d : Device) : Device := { d with revenueCatId := none }

/-- Updating `revenueCatId` is invisible after `stripRc`. -/
theorem stripRc_set (x : Device) (rc : Option String) :
    stripRc { x with revenueCatId := rc } = stripRc x := rfl

/-- C9: registration is idempotent. Registering the same deviceId twice with
the same arguments returns the same credits and isPro, and the second call
changes nothing at all (no new record, no field update); moreover a call on an
existing device changes at most the revenueCatId field, and changes it only
when a truthy, different value was supplied. -/
theorem c9_register_idempotent (now1 now2 : Int) (id : String) (rc : Option String)
    (ds s1 s2 : List Device) (r1 r2 : RegResult)
    (h1 : registerDevice now1 id rc ds = .ok (s1, r1))
    (h2 : registerDevice now2 id rc s1 = .ok (s2, r2)) :
    r2.credits = r1.credits ∧ r2.isPro = r1.isPro ∧ s2 = s1 ∧
    (∀ ex, ds.find? (fun x => x.deviceId == id) = some ex →
      s1.map stripRc = ds.map stripRc ∧
      (s1 ≠ ds → strFalsy rc = false ∧ ex.revenueCatId ≠ rc)) := by
  by_cases hlen : 255 < id.length ∨ (strFalsy rc = false ∧ 255 < (rc.getD "").length)
  · rw [registerDevice, if_pos hlen] at h1
    exact absurd h1 (by simp)
  · rw [registerDevice, if_neg hlen] at h1
    rw [registerDevice, if_neg hlen] at h2
    cases hfind : ds.find? (fun x => x.deviceId == id) with
    | none =>
      rw [hfind] at h1
      simp only [Except.ok.injEq, Prod.mk.injEq] at h1
      obtain ⟨hs1, hr1⟩ := h1
      have hfresh : s1.find? (fun x => x.deviceId == id) =
          some (freshDevice id rc now1) := by
        rw [← hs1]
        rw [List.find?_append, hfind]
        simp [freshDevice]
      rw [hfresh] at h2
      have hguard : ¬(strFalsy rc = false ∧
          (freshDevice id rc now1).revenueCatId ≠ rc) := by
        simp [freshDevice]
      simp only [if_neg hguard, Except.ok.injEq, Prod.mk.injEq] at h2
      obtain ⟨hs2, hr2⟩ := h2
      refine ⟨?_, ?_, hs2.symm, ?_⟩
      · rw [← hr2, ← hr1]
        rfl
      · rw [← hr2, ← hr1]
        rfl
      · intro ex hex
        exact absurd hex (by simp)
    | some ex =>
      rw [hfind] at h1
      simp only [Except.ok.injEq, Prod.mk.injEq] at h1
      obtain ⟨hs1, hr1⟩ := h1
      have hpex := List.find?_some hfind
      by_cases hg : strFalsy rc = false ∧ ex.revenueCatId ≠ rc
      · rw [if_pos hg] at hs1
        obtain ⟨l1, l2, hds, hl1, hpf⟩ :=
          patchFirst_decomp (fun x => x.deviceId == id)
            (fun x => { x with revenueCatId := rc }) ds ex hfind
        have hs1' : s1 = l1 ++ { ex with revenueCatId := rc } :: l2 := by
          rw [← hs1, hpf]
        have hnone : l1.find? (fun x => x.deviceId == id) = none :=
          List.find?_eq_none.mpr (fun x hx => by simp [hl1 x hx])
        have hfind2 : s1.find? (fun x => x.deviceId == id) =
            some { ex with revenueCatId := rc } := by
          rw [hs1', List.find?_append, hnone, Option.none_or]
          exact List.find?_cons_of_pos l2 (by simpa using hpex)
        rw [hfind2] at h2
        have hguard2 : ¬(strFalsy rc = false ∧
            ({ ex with revenueCatId := rc } : Device).revenueCatId ≠ rc) := by
          intro hcon
          exact hcon.2 rfl
        simp only [if_neg hguard2, Except.ok.injEq, Prod.mk.injEq] at h2
        obtain ⟨hs2, hr2⟩ := h2
        refine ⟨?_, ?_, hs2.symm, ?_⟩
        · rw [← hr2, ← hr1]
          rfl
        · rw [← hr2, ← hr1]
          rfl
        · intro ex' hex'
          injection hex' with hex'
          subst hex'
          refine ⟨?_, fun _ => hg⟩
          rw [hs1', hds]
          simp [stripRc_set]
      · rw [if_neg hg] at hs1
        rw [← hs1, hfind] at h2
        simp only [if_neg hg, Except.ok.injEq, Prod.mk.injEq] at h2
        obtain ⟨hs2, hr2⟩ := h2
        refine ⟨?_, ?_, hs2.symm.trans hs1, ?_⟩
        · rw [← hr2, ← hr1]
        · rw [← hr2, ← hr1]
        · intro ex' hex'
          injection hex' with hex'
          subst hex'
          exact ⟨by rw [← hs1], fun hne => absurd hs1.symm hne⟩

/-- C9 witness: registering a concrete device twice starting from an empty
table returns the same credits both times. -/
theorem c9_register_idempotent_witness :
    (normalizeExisting (freshDevice "d1" (some "r1") 100) (some "r1")).credits =
      (normalizeNew (freshDevice "d1" (some "r1") 100)).credits :=
  (c9_register_idempotent 100 200 "d1" (some "r1") [] [freshDevice "d1" (some "r1") 100]
    [freshDevice "d1" (some "r1") 100]
    (normalizeNew (freshDevice "d1" (some "r1") 100))
    (normalizeExisting (freshDevice "d1" (some "r1") 100) (some "r1"))
    (by rfl) (by rfl)).1

/-- A parsed RevenueCat webhook event (`event.type`, `event.app_user_id`). -/
structure RCEvent where
  type : String
  appUserId : Option String
deriving Repr, DecidableEq

/-- `updateProStatus` (`convex/devices.ts` 353-384): look up by `revenueCatId`,
fall back to `deviceId`, patch `isPro`; silently drop the event if neither
lookup resolves. -/
def updateProStatus (rcId : String) (b : Bool) (ds : List Device) : List Device :=
  match ds.find? (fun x => x.revenueCatId == some rcId) with
  | some _ =>
    patchFirst (fun x => x.revenueCatId == some rcId) (fun x => { x with isPro := b }) ds
  | none =>
    match ds.find? (fun x => x.deviceId == rcId) with
    | some _ =>
      patchFirst (fun x => x.deviceId == rcId) (fun x => { x with isPro := b }) ds
    | none => ds

/-- The `/webhooks/revenuecat` handler (`convex/http.ts` 18-105).
`body = none` models unparseable JSON, `some none` a body without `event`.
The source's auth check `!authHeader || authHeader !== expected` is equivalent
to `authHeader ≠ some expected` since `expected` is nonempty.  CANCELLATION
and BILLING_ISSUE leave `isPro` untouched (grace-period comment in the
source); unhandled event types are acknowledged without mutation. -/
def revenuecatWebhook (secret : Option String) (authHeader : Option String)
    (body : Option (Option RCEvent)) (ds : List Device) : Nat × List Device :=
  match secret with
  | none => (500, ds)
  | some s =>
    if authHeader = some ("Bearer " ++ s) then
      match body with
      | none => (400, ds)
      | some none => (400, ds)
      | some (some ev) =>
        match ev.appUserId with
        | none => (400, ds)
        | some uid =>
          if uid = "" then (400, ds)
          else if ev.type = "INITIAL_PURCHASE" ∨ ev.type = "RENEWAL" ∨
              ev.type = "PRODUCT_CHANGE" ∨ ev.type = "UNCANCELLATION" ∨
              ev.type = "TRANSFER" then
            (200, updateProStatus uid true ds)
          else if ev.type = "EXPIRATION" then
            (200, updateProStatus uid false ds)
          else
            (200, ds)
    else (401, ds)

/-- When some device matches the identifier (by billing id, or falling back to
device id), `updateProStatus` patches exactly the first match's `isPro`. -/
theorem updateProStatus_resolvable (uid : String) (b : Bool) (ds : List Device)
    (h : ∃ x ∈ ds, x.revenueCatId = some uid ∨ x.deviceId = uid) :
    ∃ l1 dv l2, ds = l1 ++ dv :: l2 ∧
      updateProStatus uid b ds = l1 ++ { dv with isPro := b } :: l2 := by
  cases hrc : ds.find? (fun x => x.revenueCatId == some uid) with
  | some dv =>
    obtain ⟨l1, l2, hds, hl1, hpf⟩ :=
      patchFirst_decomp (fun x => x.revenueCatId == some uid)
        (fun x => { x with isPro := b }) ds dv hrc
    exact ⟨l1, dv, l2, hds, by simp only [updateProStatus, hrc, hpf]⟩
  | none =>
    cases hid : ds.find? (fun x => x.deviceId == uid) with
    | some dv =>
      obtain ⟨l1, l2, hds, hl1, hpf⟩ :=
        patchFirst_decomp (fun x => x.deviceId == uid)
          (fun x => { x with isPro := b }) ds dv hid
      exact ⟨l1, dv, l2, hds, by simp only [updateProStatus, hrc, hid, hpf]⟩
    | none =>
      obtain ⟨x, hx, hor⟩ := h
      rcases hor with hor | hor
      · exact absurd (by simpa using List.find?_eq_none.mp hrc x hx) (by simp [hor])
      · exact absurd (by simpa using List.find?_eq_none.mp hid x hx) (by simp [hor])

/-- When no device matches the identifier, `updateProStatus` is a no-op. -/
theorem updateProStatus_unresolvable (uid : String) (b : Bool) (ds : List Device)
    (h : ∀ x ∈ ds, x.revenueCatId ≠ some uid ∧ x.deviceId ≠ uid) :
    updateProStatus uid b ds = ds := by
  have hrc : ds.find? (fun x => x.revenueCatId == some uid) = none :=
    List.find?_eq_none.mpr (fun x hx => by simpa using (h x hx).1)
  have hid : ds.find? (fun x => x.deviceId == uid) = none :=
    List.find?_eq_none.mpr (fun x hx => by simpa using (h x hx).2)
  simp only [updateProStatus, hrc, hid]

/-- C4: for an authenticated, well-formed webhook event with a nonempty
app_user_id, the response status is 200 for every event type (including when
no device matches); INITIAL_PURCHASE, RENEWAL, PRODUCT_CHANGE, UNCANCELLATION
and TRANSFER apply `updateProStatus` with true, EXPIRATION applies it with
false, CANCELLATION and BILLING_ISSUE change nothing, and unrecognized types
change nothing; when a device is resolvable `updateProStatus b` sets exactly
that device's isPro to b, and when none is resolvable it is a no-op. -/
theorem c4_webhook (s : String) (ev : RCEvent) (uid : String) (ds : List Device)
    (hev : ev.appUserId = some uid) (huid : uid ≠ "") :
    (revenuecatWebhook (some s) (some ("Bearer " ++ s)) (some (some ev)) ds).1 = 200 ∧
    (ev.type = "INITIAL_PURCHASE" ∨ ev.type = "RENEWAL" ∨
        ev.type = "PRODUCT_CHANGE" ∨ ev.type = "UNCANCELLATION" ∨
        ev.type = "TRANSFER" →
      (revenuecatWebhook (some s) (some ("Bearer " ++ s)) (some (some ev)) ds).2 =
        updateProStatus uid true ds) ∧
    (ev.type = "EXPIRATION" →
      (revenuecatWebhook (some s) (some ("Bearer " ++ s)) (some (some ev)) ds).2 =
        updateProStatus uid false ds) ∧
    (ev.type = "CANCELLATION" ∨ ev.type = "BILLING_ISSUE" →
      (revenuecatWebhook (some s) (some ("Bearer " ++ s)) (some (some ev)) ds).2 = ds) ∧
    (ev.type ∉ (["INITIAL_PURCHASE", "RENEWAL", "PRODUCT_CHANGE", "UNCANCELLATION",
        "TRANSFER", "EXPIRATION", "CANCELLATION", "BILLING_ISSUE"] : List String) →
      (revenuecatWebhook (some s) (some ("Bearer " ++ s)) (some (some ev)) ds).2 = ds) ∧
    (∀ b, (∃ x ∈ ds, x.revenueCatId = some uid ∨ x.deviceId = uid) →
      ∃ l1 dv l2, ds = l1 ++ dv :: l2 ∧
        updateProStatus uid b ds = l1 ++ { dv with isPro := b } :: l2) ∧
    ((∀ x ∈ ds, x.revenueCatId ≠ some uid ∧ x.deviceId ≠ uid) →
      ∀ b, updateProStatus uid b ds = ds) := by
  have hred : revenuecatWebhook (some s) (some ("Bearer " ++ s)) (some (some ev)) ds =
      (if ev.type = "INITIAL_PURCHASE" ∨ ev.type = "RENEWAL" ∨
          ev.type = "PRODUCT_CHANGE" ∨ ev.type = "UNCANCELLATION" ∨
          ev.type = "TRANSFER" then
        (200, updateProStatus uid true ds)
      else if ev.type = "EXPIRATION" then
        (200, updateProStatus uid false ds)
      else
        (200, ds)) := by
    simp only [revenuecatWebhook, hev]
    rw [if_true, if_neg huid]
  refine ⟨?_, fun h => ?_, fun h => ?_, fun h => ?_, fun h => ?_,
    fun b hr => updateProStatus_resolvable uid b ds hr,
    fun hu b => updateProStatus_unresolvable uid b ds hu⟩
  · rw [hred]
    split_ifs <;> rfl
  · rw [hred, if_pos h]
  · have h1 : ¬(ev.type = "INITIAL_PURCHASE" ∨ ev.type = "RENEWAL" ∨
        ev.type = "PRODUCT_CHANGE" ∨ ev.type = "UNCANCELLATION" ∨
        ev.type = "TRANSFER") := by
      rw [h]
      decide
    rw [hred, if_neg h1, if_pos h]
  · have h1 : ¬(ev.type = "INITIAL_PURCHASE" ∨ ev.type = "RENEWAL" ∨
        ev.type = "PRODUCT_CHANGE" ∨ ev.type = "UNCANCELLATION" ∨
        ev.type = "TRANSFER") := by
      rcases h with h | h <;> rw [h] <;> decide
    have h2 : ¬(ev.type = "EXPIRATION") := by
      rcases h with h | h <;> rw [h] <;> decide
    rw [hred, if_neg h1, if_neg h2]
  · have h1 : ¬(ev.type = "INITIAL_PURCHASE" ∨ ev.type = "RENEWAL" ∨
        ev.type = "PRODUCT_CHANGE" ∨ ev.type = "UNCANCELLATION" ∨
        ev.type = "TRANSFER") := by
      rintro (h' | h' | h' | h' | h') <;> exact h (by simp [h'])
    have h2 : ¬(ev.type = "EXPIRATION") := fun h' => h (by simp [h'])
    rw [hred, if_neg h1, if_neg h2]

/-- C4 witness: an authenticated INITIAL_PURCHASE event for a registered
device is acknowledged with 200. -/
theorem c4_webhook_witness :
    (revenuecatWebhook (some "sec") (some ("Bearer " ++ "sec"))
      (some (some { type := "INITIAL_PURCHASE", appUserId := some "dev1" }))
      [freshDevice "dev1" (some "dev1") 1]).1 = 200 :=
  (c4_webhook "sec" { type := "INITIAL_PURCHASE", appUserId := some "dev1" }
    "dev1" [freshDevice "dev1" (some "dev1") 1] rfl (by decide)).1

/-- The parsed body of an `/api/executeTool` request; `none` fields model
absent JSON fields. -/
structure ExecBody where
  deviceId : Option String
  toolId : Option String
  userInput : Option String
  previousResults : Option (List String)
deriving Repr, DecidableEq

/-- Reads issued against the backing tables. -/
inductive StoreRead
  | readDevices
  | readUsage
deriving Repr, DecidableEq

/-- Outcome of the pre-streaming phase of `/api/executeTool`. -/
inductive PreOutcome
  | errResp (status : Nat) (code : String)
  | proceed (device : Device)
deriving Repr, DecidableEq

/-- `userInput.trim().split(/\s+/).length` from JavaScript: splitting the
empty string yields one (empty) token. -/
def jsWordCount (s : String) : Nat :=
  let t := s.trim
  if t = "" then 1
  else ((t.split fun c => c.isWhitespace).filter (fun w => w ≠ "")).length

/-- The pre-streaming phase of `/api/executeTool` (`convex/http.ts` 123-298):
JSON parse (`body = none` models unparseable JSON), missing-field check (JS
falsiness: absent or empty string), kill switch, input-length and
previous-results bounds, word count, device lookup, credit/Pro check, burst
rate limit (count over the last 60s, threshold 15), Pro daily cap (threshold
500), API-key check.  The second component records which tables were read;
`recentCount` and `dailyCount` are the results the usage-ledger queries would
return. -/
def executeToolPre (killSwitch apiKey : Option String) (body : Option ExecBody)
    (ds : List Device) (recentCount dailyCount : Int) :
    PreOutcome × List StoreRead :=
  match body with
  | none => (.errResp 400 "invalid_json", [])
  | some b =>
    if strFalsy b.deviceId = true ∨ strFalsy b.toolId = true ∨
        strFalsy b.userInput = true then
      (.errResp 400 "missing_fields", [])
    else if killSwitch = some "true" then
      (.errResp 503 "service_unavailable", [])
    else if 6000 < (b.userInput.getD "").length then
      (.errResp 400 "input_too_long", [])
    else if (match b.previousResults with
        | none => false
        | some l => 5 < l.length) then
      (.errResp 400 "too_many_previous_results", [])
    else if (match b.previousResults with
        | none => false
        | some l => l.any fun r => 2000 < r.length) then
      (.errResp 400 "previous_result_too_long", [])
    else if (b.toolId.getD "" = "find-synonyms" ∧
          jsWordCount (b.userInput.getD "") ≠ 1) ∨
        (b.toolId.getD "" ≠ "find-synonyms" ∧
          jsWordCount (b.userInput.getD "") < 2) then
      (.errResp 400 "too_short", [])
    else
      match ds.find? (fun x => x.deviceId == b.deviceId.getD "") with
      | none => (.errResp 401 "device_not_found", [.readDevices])
      | some device =>
        if device.isPro = false ∧ device.credits ≤ 0 then
          (.errResp 402 "no_credits", [.readDevices])
        else if 15 < recentCount then
          (.errResp 429 "rate_limited", [.readDevices, .readUsage])
        else if device.isPro = true ∧ 500 < dailyCount then
          (.errResp 429 "daily_limit_exceeded", [.readDevices, .readUsage, .readUsage])
        else
          match apiKey with
          | none => (.errResp 500 "ai_failed",
              .readDevices :: .readUsage ::
                (if device.isPro then [.readUsage] else []))
          | some _ => (.proceed device,
              .readDevices :: .readUsage ::
                (if device.isPro then [.readUsage] else []))

/-- C8 counterexample: with the kill switch engaged, a request whose body is
not valid JSON is answered with invalid_json, not service_unavailable — the
kill switch is consulted only after parsing and the missing-field check. -/
theorem c8_counterexample :
    (executeToolPre (some "true") none none [] 0 0).1 =
      PreOutcome.errResp 400 "invalid_json" ∧
    (executeToolPre (some "true") none none [] 0 0).1 ≠
      PreOutcome.errResp 503 "service_unavailable" := by
  decide

/-- C8 amended: when the kill switch is engaged, every request whose body
parses and carries truthy deviceId, toolId and userInput is answered 503
service_unavailable before any further check, with no read of the devices or
toolUsage tables (and no proceed, hence no writes); bodies that fail parsing
or the field-presence check are rejected even earlier — with invalid_json
resp. missing_fields — likewise without touching the stores. -/
theorem c8_kill_switch_amended (apiKey : Option String) (b : ExecBody)
    (ds : List Device) (recentCount dailyCount : Int)
    (h1 : strFalsy b.deviceId = false) (h2 : strFalsy b.toolId = false)
    (h3 : strFalsy b.userInput = false) :
    executeToolPre (some "true") apiKey (some b) ds recentCount dailyCount =
      (.errResp 503 "service_unavailable", []) ∧
    executeToolPre (some "true") apiKey none ds recentCount dailyCount =
      (.errResp 400 "invalid_json", []) ∧
    (∀ b' : ExecBody, strFalsy b'.deviceId = true ∨ strFalsy b'.toolId = true ∨
        strFalsy b'.userInput = true →
      executeToolPre (some "true") apiKey (some b') ds recentCount dailyCount =
        (.errResp 400 "missing_fields", [])) := by
  refine ⟨?_, rfl, fun b' hb' => ?_⟩
  · simp only [executeToolPre]
    rw [if_neg (by simp [h1, h2, h3]), if_true]
  · simp only [executeToolPre]
    rw [if_pos hb']

/-- C8 witness: the amended statement at a concrete well-formed body. -/
theorem c8_kill_switch_amended_witness :
    executeToolPre (some "true") none
      (some { deviceId := some "d", toolId := some "t",
              userInput := some "hello world", previousResults := none })
      [] 0 0 = (.errResp 503 "service_unavailable", []) :=
  (c8_kill_switch_amended none
    { deviceId := some "d", toolId := some "t",
      userInput := some "hello world", previousResults := none }
    [] 0 0 rfl rfl rfl).1

/-- One observable action of the SSE stream body of `/api/executeTool`
(`convex/http.ts` 304-381): enqueued events and database mutations, in
program order. -/
inductive StreamAct
  | emitChunk (s : String)
  | emitDone (fullText : String)
  | emitError (code : String)
  | deduct
  | logUsage
deriving Repr, DecidableEq

def isDoneAct : StreamAct → Bool
  | .emitDone _ => true
  | _ => false

def isWriteAct : StreamAct → Bool
  | .deduct => true
  | .logUsage => true
  | _ => false

/-- The response-length cap (`convex/http.ts` 340-345). -/
def truncateResult (f : String) : String :=
  if 5000 < f.length then f.take 5000 ++ "..." else f

/-- The `ReadableStream.start` body (`convex/http.ts` 305-380).  `deltas` are
the chunk contents delivered by the provider before either normal completion
(`failure = none`) or a thrown error stringifying to `failure = some e`.
Falsy (empty) deltas are neither emitted nor accumulated.  `extract` stands
for the JSON-envelope unwrapping of lines 326-337 (a tolerant regex match
plus the host `JSON.parse`, external to this core); the length truncation
that follows it is modelled by `truncateResult`.  On success the done event
is enqueued and only then are the deduct (for non-Pro devices) and usage-log
mutations run; on failure only a terminal error event is enqueued, with code
ai_quota_exceeded exactly when the error string contains "429". -/
def streamBody (extract : String → String) (isPro : Bool)
    (deltas : List String) (failure : Option String) : List StreamAct :=
  let kept := deltas.filter (fun c => c ≠ "")
  let emitted := kept.map StreamAct.emitChunk
  match failure with
  | some e =>
    emitted ++ [.emitError (if strContains e "429" then "ai_quota_exceeded"
      else "ai_failed")]
  | none =>
    let fullText := String.join kept
    let finalResult := truncateResult (extract fullText)
    emitted ++ StreamAct.emitDone finalResult ::
      ((if isPro = false then [StreamAct.deduct] else []) ++ [StreamAct.logUsage])

/-- Acts that are not writes stay not-writes under `takeWhile`. -/
theorem all_not_write_of (acts : List StreamAct)
    (h : ∀ a ∈ acts, isWriteAct a = false) :
    (acts.takeWhile (fun a => !isDoneAct a)).all (fun a => !isWriteAct a) = true := by
  rw [List.all_eq_true]
  intro a ha
  have := h a (List.takeWhile_subset _ ha)
  simp [this]

/-- `takeWhile` over a chunk block stops exactly at the done event. -/
theorem takeWhile_chunks (l : List String) (f : String) (rest : List StreamAct) :
    ((l.map StreamAct.emitChunk) ++ StreamAct.emitDone f :: rest).takeWhile
      (fun a => !isDoneAct a) = l.map StreamAct.emitChunk := by
  induction l with
  | nil => simp [List.takeWhile_cons, isDoneAct]
  | cons a as ih => simp [List.takeWhile_cons, isDoneAct, ih]

/-- C3: when the provider call fails (throws after delivering some chunks),
the stream body performs no deduct and no usage-log write, and its terminal
event is the error event whose code is ai_quota_exceeded exactly when the
stringified error contains "429" and ai_failed otherwise; moreover, in every
run of the stream body, no write ever precedes the done event. -/
theorem c3_failed_generation (extract : String → String) (isPro : Bool)
    (deltas : List String) (e : String) :
    (StreamAct.deduct ∉ streamBody extract isPro deltas (some e) ∧
      StreamAct.logUsage ∉ streamBody extract isPro deltas (some e)) ∧
    (streamBody extract isPro deltas (some e)).getLast? =
      some (.emitError (if strContains e "429" then "ai_quota_exceeded"
        else "ai_failed")) ∧
    (∀ chs fl, ((streamBody extract isPro chs fl).takeWhile
        (fun a => !isDoneAct a)).all (fun a => !isWriteAct a) = true) := by
  refine ⟨⟨?_, ?_⟩, ?_, fun chs fl => ?_⟩
  · simp [streamBody]
  · simp [streamBody]
  · simp [streamBody, List.getLast?_concat]
  · cases fl with
    | some e' =>
      apply all_not_write_of
      intro a ha
      simp only [streamBody, List.mem_append, List.mem_map, List.mem_singleton] at ha
      rcases ha with ⟨c, _, hc⟩ | ha
      · rw [← hc]
        rfl
      · rw [ha]
        rfl
    | none =>
      simp only [streamBody]
      rw [takeWhile_chunks]
      rw [List.all_eq_true]
      intro a ha
      obtain ⟨c, _, hc⟩ := List.mem_map.mp ha
      rw [← hc]
      rfl

/-- C3 witness: a concrete failed stream with a 429 error. -/
theorem c3_failed_generation_witness :
    StreamAct.deduct ∉ streamBody (fun s => s) false ["a"] (some "Error: 429 quota") :=
  (c3_failed_generation (fun s => s) false ["a"] "Error: 429 quota").1.1
